import Mathlib

/-!
Verification development for the ccloud-sa-api-automation reconciliation
engine.  The definitions below are a shallow embedding of the Python source:

* `ccloud_managers/service_account.py` — the service-account cache and its
  `find_sa` / `create_sa` / `delete_sa` operations (HTTP responses are
  modelled as explicit response records passed in);
* `config_store.py` — the task ledger (`CSMConfigTask`, `set_task_status`)
  and the API-key diff algebra of `populate_api_key_tasks`;
* `app_managers/workflow_manager/task_generator.py` — the reconcilers:
  service-account deletion filtering, the wildcard expansion kept in
  `CSMAPIKeyTasks`'s class-level sets, API-key creation and the two API-key
  deletion streams;
* `app_managers/workflow_manager/workflows.py` — the orchestrator's
  service-account creation phase;
* `app_managers/helpers.py` — `check_pair`.

Python dicts are embedded as insertion-ordered association lists, Python
sets as `Finset String`, raised exceptions as `Except.error`.
-/

/-- Python dict lookup on an insertion-ordered association list
(first binding of the key wins; dict keys are unique in practice). -/
def dictGet {α : Type} (l : List (String × α)) (k : String) : Option α :=
  match l with
  | [] => none
  | (k', v) :: rest => if k' = k then some v else dictGet rest k

/-- Python `dict[key] = value`: replace in place when the key is present,
append otherwise (insertion order is preserved). -/
def dictInsert {α : Type} (l : List (String × α)) (k : String) (v : α) :
    List (String × α) :=
  match l with
  | [] => [(k, v)]
  | (k', v') :: rest =>
    if k' = k then (k, v) :: rest else (k', v') :: dictInsert rest k v

/-- Python `dict.pop(key, None)`. -/
def dictRemove {α : Type} (l : List (String × α)) (k : String) :
    List (String × α) :=
  match l with
  | [] => []
  | (k', v') :: rest =>
    if k' = k then rest else (k', v') :: dictRemove rest k

/-- The observed service account (`CCloudServiceAccount` dataclass,
`ccloud_managers/service_account.py` lines 11-18). -/
structure CCloudServiceAccount where
  resource_id : String
  name : String
  description : String
  created_at : String
  updated_at : String
  is_ignored : Bool
deriving DecidableEq, Repr

/-- The service-account cache `self.sa : Dict[str, CCloudServiceAccount]`,
keyed by `resource_id` in insertion order. -/
abbrev SACache : Type := List (String × CCloudServiceAccount)

/-- `CCloudServiceAccountList.find_sa` (service_account.py lines 79-83):
scan the cache values in order, return the first whose name matches. -/
def find_sa (cache : SACache) (sa_name : String) : Option CCloudServiceAccount :=
  match cache with
  | [] => none
  | (_, item) :: rest => if sa_name = item.name then some item else find_sa rest sa_name

/-- An HTTP response from the provider, as far as the embedded code reads it:
a status code, the JSON fields `create_sa` uses, and the error text. -/
structure SAHttpResponse where
  status_code : Nat
  id : String
  display_name : String
  description : String
  created_at : String
  updated_at : String
  text : String
deriving DecidableEq, Repr

/-- `CCloudServiceAccountList.create_sa` (service_account.py lines 89-118).
The outbound POST is modelled by the `resp` argument: the provider's reply.
Returns the new cache together with the `(CCloudServiceAccount, bool)` pair
the Python returns; a non-201 response raises, modelled as `Except.error`. -/
def create_sa (cache : SACache) (sa_name : String) (resp : SAHttpResponse) :
    Except String (SACache × CCloudServiceAccount × Bool) :=
  match find_sa cache sa_name with
  | some temp => Except.ok (cache, temp, false)
  | none =>
    if resp.status_code = 201 then
      let sa_value : CCloudServiceAccount :=
        { resource_id := resp.id
          name := resp.display_name
          description := resp.description
          created_at := resp.created_at
          updated_at := resp.updated_at
          is_ignored := false }
      Except.ok (dictInsert cache resp.id sa_value, sa_value, true)
    else
      Except.error
        ("Could not connect to Confluent Cloud. Please check your settings. " ++ resp.text)

/-- `CCloudServiceAccountList.delete_sa` (service_account.py lines 120-131).
The DELETE call is modelled by `resp_status`/`resp_text`.  A missing account
prints and returns `False` without touching the cache; a 204 removes the
account from the cache and returns `True`; anything else raises. -/
def delete_sa (cache : SACache) (sa_name : String) (resp_status : Nat)
    (resp_text : String) : Except String (SACache × Bool) :=
  match find_sa cache sa_name with
  | none => Except.ok (cache, false)
  | some temp =>
    if resp_status = 204 then
      Except.ok (dictRemove cache temp.resource_id, true)
    else
      Except.error
        ("Could not perform the DELETE operation. Please check your settings. " ++ resp_text)

/-- Modelled from the spec: the Declaration entity of the data model
(`yaml_parser.CSMDefinitions` service-account entries are not under src/;
the fields are those the task generators read: `name`, `description`,
`cluster_list`, `is_rp_user`, `rp_access`). -/
structure CSMDefSA where
  name : String
  description : String
  cluster_list : List String
  is_rp_user : Bool
  rp_access : Bool
deriving DecidableEq, Repr

/-- Modelled from the spec: the Observed API Key entity
(`api_key_manager.CCloudAPIKeyList` values are not under src/; the fields
the task generators read are `api_key`, `owner_id` and `cluster_id`). -/
structure CCloudAPIKey where
  api_key : String
  owner_id : String
  cluster_id : String
deriving DecidableEq, Repr

/-- Modelled from the spec: the secret-store entry
(`secrets_manager_interface.CSMSecretsManager` values are not under src/;
the task generators read `sa_name`, `cluster_id` and `api_key`). -/
structure CSMSecret where
  secret_name : String
  sa_name : String
  cluster_id : String
  api_key : String
deriving DecidableEq, Repr

/-- Modelled from the spec: the find-keys-by-owner inventory helper
(`CCloudAPIKeyList.find_keys_with_sa`, not under src/): every observed key
owned by the given resource id; `None` (a missing owner id) matches no key. -/
def find_keys_with_sa (keys : List CCloudAPIKey) (sa_id : Option String) :
    List CCloudAPIKey :=
  match sa_id with
  | none => []
  | some rid => keys.filter (fun k => k.owner_id = rid)

/-- Modelled from the spec: `CCloudAPIKeyList.find_keys_with_sa_and_cluster`
(not under src/): the keys owned by the given resolved service account on the
given cluster; an unresolved account matches no key. -/
def find_keys_with_sa_and_cluster (keys : List CCloudAPIKey)
    (sa : Option CCloudServiceAccount) (cluster_id : String) :
    List CCloudAPIKey :=
  match sa with
  | none => []
  | some sad =>
    keys.filter (fun k => k.owner_id = sad.resource_id && k.cluster_id = cluster_id)

/-- `CSMConfigTaskStatus` (config_store.py lines 11-16): the ledger status
enum — note it contains an In Progress member besides Not Started, Success
and Failed. -/
inductive CSMConfigTaskStatus where
  | sts_not_started
  | sts_in_progress
  | sts_success
  | sts_failed
deriving DecidableEq, Repr

/-- `CSMConfigTaskType` (config_store.py lines 18-21). -/
inductive CSMConfigTaskType where
  | create_task
  | update_task
  | delete_task
deriving DecidableEq, Repr

/-- `CSMConfigObjectType` (config_store.py lines 24-27). -/
inductive CSMConfigObjectType where
  | sa_type
  | api_key_type
  | secret_store_type
deriving DecidableEq, Repr

/-- `CSMConfigTask` (config_store.py lines 30-38); the untyped
`task_object` dict payload is kept as a string-to-string association list. -/
structure CSMConfigTask where
  task_type : CSMConfigTaskType
  object_type : CSMConfigObjectType
  status : CSMConfigTaskStatus
  status_message : String
  task_object : List (String × String)
deriving DecidableEq, Repr

/-- `CSMConfigDataMap.add_new_task` (config_store.py lines 47-50): the
ledger keys tasks by `len(self.tasks)`, so it is a list with append. -/
def add_new_task (tasks : List CSMConfigTask) (task_type : CSMConfigTaskType)
    (object_type : CSMConfigObjectType) (status : CSMConfigTaskStatus)
    (task_object : List (String × String))
    (status_msg : String := "Waiting to start") : List CSMConfigTask :=
  tasks ++ [{ task_type := task_type, object_type := object_type,
              status := status, status_message := status_msg,
              task_object := task_object }]

/-- `CSMConfigDataMap.set_task_status` (config_store.py lines 52-60):
overwrites status and message of `tasks[task_key]` unconditionally, and the
payload when the given payload is truthy (an empty dict, like None, is
falsy and leaves the payload alone).  A missing key is a Python `KeyError`,
modelled as `none`. -/
def set_task_status (tasks : List CSMConfigTask) (task_key : Nat)
    (task_status : CSMConfigTaskStatus) (status_msg : String)
    (object_payload : List (String × String)) :
    Option (List CSMConfigTask) :=
  match tasks.get? task_key with
  | none => none
  | some t =>
    some (tasks.set task_key
      { t with status := task_status, status_message := status_msg,
               task_object := if object_payload = [] then t.task_object
                              else object_payload })

/-- Modelled from the spec: the Set-Diff Engine's
`find_items_to_be_created(config_item_names, ccloud_item_names)`
(`app_managers/workflow_manager/types.py`, not under src/):
`to_create(declared, observed) = declared − observed`. -/
def find_items_to_be_created (config_item_names ccloud_item_names : Finset String) :
    Finset String :=
  config_item_names \ ccloud_item_names

/-- Modelled from the spec: the Set-Diff Engine's
`find_items_to_be_deleted(config_item_names, ccloud_item_names)`
(`app_managers/workflow_manager/types.py`, not under src/):
`to_delete(declared, observed) = observed − declared`. -/
def find_items_to_be_deleted (config_item_names ccloud_item_names : Finset String) :
    Finset String :=
  ccloud_item_names \ config_item_names

/-- The composite key `"~".join([sa_name, cluster_id])` (glossary: string
identity `sa_name~cluster_id`). -/
def compositeKey (sa_name cluster_id : String) : String :=
  sa_name ++ "~" ++ cluster_id

/-- The characters before the first tilde paired with those after it (the
whole input and an empty remainder when there is no tilde). -/
def splitCharsAtTilde : List Char → List Char × List Char
  | [] => ([], [])
  | c :: cs =>
    if c = '~' then ([], cs)
    else
      let p := splitCharsAtTilde cs
      (c :: p.1, p.2)

/-- Python `item.split("~", 1)` followed by `value[0], value[1]`: split at
the first tilde.  The task generators only apply it to composite keys, which
always contain a tilde; on a tilde-free string Python would raise an
IndexError reading `value[1]`, rendered here as an empty second component. -/
def splitTildeOnce (s : String) : String × String :=
  ((splitCharsAtTilde s.data).1.asString, (splitCharsAtTilde s.data).2.asString)

/-- One declared service account's composite keys
(task_generator.py lines 74-79 / config_store.py lines 122-125): the
wildcard token `FORCE_ALL_CLUSTERS` expands to every currently known
cluster id, an explicit list to its own entries. -/
def declared_keys_of_sa (sa : CSMDefSA) (cluster_ids : List String) :
    List String :=
  if "FORCE_ALL_CLUSTERS" ∈ sa.cluster_list then
    cluster_ids.map (fun cid => compositeKey sa.name cid)
  else
    sa.cluster_list.map (fun v => compositeKey sa.name v)

/-- One declared service account's observed composite keys
(task_generator.py lines 80-86 / config_store.py lines 126-132): resolve the
account in the provider cache, collect every key owned by its resource id
(`getattr(sa_id, "resource_id", None)` turns an unresolved account into
`None`, which owns no keys). -/
def observed_keys_of_sa (sa : CSMDefSA) (saCache : SACache)
    (keys : List CCloudAPIKey) : List String :=
  (find_keys_with_sa keys ((find_sa saCache sa.name).map
      (fun sad => sad.resource_id))).map
    (fun k => compositeKey sa.name k.cluster_id)

/-- All declared composite keys of one refresh, unioned over the declared
service accounts. -/
def declared_keys_now (sas : List CSMDefSA) (cluster_ids : List String) :
    Finset String :=
  (sas.flatMap (fun sa => declared_keys_of_sa sa cluster_ids)).toFinset

/-- All observed composite keys of one refresh, unioned over the declared
service accounts. -/
def observed_keys_now (sas : List CSMDefSA) (saCache : SACache)
    (keys : List CCloudAPIKey) : Finset String :=
  (sas.flatMap (fun sa => observed_keys_of_sa sa saCache keys)).toFinset

/-- The mutable sets of `CSMAPIKeyTasks` (task_generator.py lines 54-59).
They are class-level attributes initialised once to `set()`. -/
structure CSMAPIKeyTasksState where
  api_keys_in_def : Finset String
  api_keys_in_ccloud : Finset String
deriving DecidableEq

/-- The sets as first initialised at class definition time
(task_generator.py lines 56-57). -/
def CSMAPIKeyTasksState.initial : CSMAPIKeyTasksState :=
  { api_keys_in_def := ∅, api_keys_in_ccloud := ∅ }

/-- `CSMAPIKeyTasks.refresh_set_values` (task_generator.py lines 72-86):
each call `update`s (unions into) the existing class-level sets — it never
clears them, so entries from earlier refreshes are retained. -/
def CSMAPIKeyTasksState.refresh_set_values (st : CSMAPIKeyTasksState)
    (sas : List CSMDefSA) (cluster_ids : List String) (saCache : SACache)
    (keys : List CCloudAPIKey) : CSMAPIKeyTasksState :=
  { api_keys_in_def := st.api_keys_in_def ∪ declared_keys_now sas cluster_ids
    api_keys_in_ccloud :=
      st.api_keys_in_ccloud ∪ observed_keys_now sas saCache keys }

/-- `CSMServiceAccountTasks.refresh_set_values` (task_generator.py lines
17-19): unlike the API-key class these sets are reassigned fresh. -/
def sa_in_def_now (sas : List CSMDefSA) : Finset String :=
  (sas.map (fun v => v.name)).toFinset

/-- The observed service-account name set (task_generator.py line 19). -/
def sa_in_ccloud_now (saCache : SACache) : Finset String :=
  ((saCache.map Prod.snd).map (fun v => v.name)).toFinset

/-- The ignore-listed names recomputed inside
`CSMServiceAccountTasks.delete_service_account_tasks` (task_generator.py
lines 34-41): names of cached accounts whose resource id is in the
configured ignore list. -/
def ignore_sa_names (saCache : SACache) (ignore_list : List String) :
    Finset String :=
  (((saCache.map Prod.snd).filter
      (fun item => decide (item.resource_id ∈ ignore_list))).map
    (fun item => item.name)).toFinset

/-- The name set `CSMServiceAccountTasks.delete_service_account_tasks`
iterates over (task_generator.py lines 42-43): the raw diff
`observed − declared`, then minus the ignore-listed names. -/
def delete_service_account_names (sa_in_def sa_in_ccloud : Finset String)
    (saCache : SACache) (ignore_list : List String) : Finset String :=
  find_items_to_be_deleted (ignore_sa_names saCache ignore_list)
    (find_items_to_be_deleted sa_in_def sa_in_ccloud)

/-- Iteration over a Python set, rendered as the sorted element list (the
iteration order of a Python set is arbitrary; every property proved below is
order-independent).  Insertion sort is used because it is structurally
recursive, so concrete runs evaluate inside the kernel. -/
def finsetToList (s : Finset String) : List String :=
  Quot.lift (List.insertionSort (fun a b : String => a ≤ b))
    (fun l1 l2 p => List.eq_of_perm_of_sorted
      (((List.perm_insertionSort _ l1).trans p).trans
        (List.perm_insertionSort _ l2).symm)
      (List.sorted_insertionSort _ l1) (List.sorted_insertionSort _ l2)) s.val

/-- The composite keys of the entries currently in the secret store
(task_generator.py line 93 / config_store.py line 134). -/
def secrets_in_store_of (secrets : List CSMSecret) : Finset String :=
  (secrets.map (fun v => compositeKey v.sa_name v.cluster_id)).toFinset

/-- The final API-key creation set of
`CSMAPIKeyTasks.create_api_key_tasks` (task_generator.py lines 88-105):
`create_api_keys_req = declared − observed`, then
`create_secrets_req = declared − stored`,
`force_api_key_create = create_secrets_req − create_api_keys_req`, and
`create_api_keys_req.update(force_api_key_create)`. -/
def create_api_keys_req_final (api_keys_in_def api_keys_in_ccloud : Finset String)
    (secrets : List CSMSecret) : Finset String :=
  let create_api_keys_req :=
    find_items_to_be_created api_keys_in_def api_keys_in_ccloud
  let create_secrets_req :=
    find_items_to_be_created api_keys_in_def (secrets_in_store_of secrets)
  let force_api_key_create :=
    find_items_to_be_created create_secrets_req create_api_keys_req
  create_api_keys_req ∪ force_api_key_create

/-- `create_secrets_req` as stored on the instance
(task_generator.py lines 94-96 / config_store.py line 135). -/
def create_secrets_req_of (api_keys_in_def : Finset String)
    (secrets : List CSMSecret) : Finset String :=
  find_items_to_be_created api_keys_in_def (secrets_in_store_of secrets)

/-- `update_secrets_req` (task_generator.py line 97 /
config_store.py line 136): base creation diff intersected with the store. -/
def update_secrets_req_of (api_keys_in_def api_keys_in_ccloud : Finset String)
    (secrets : List CSMSecret) : Finset String :=
  (find_items_to_be_created api_keys_in_def api_keys_in_ccloud) ∩
    secrets_in_store_of secrets

/-- The same final creation set computed by the monolithic
`CSMConfigDataMap.populate_api_key_tasks` (config_store.py lines 119-142),
which rebuilds `api_keys_in_def` / `api_keys_in_ccloud` /
`secrets_in_store` as fresh local sets on every call. -/
def populate_api_key_tasks_create_set (sas : List CSMDefSA)
    (cluster_ids : List String) (saCache : SACache)
    (keys : List CCloudAPIKey) (secrets : List CSMSecret) : Finset String :=
  create_api_keys_req_final (declared_keys_now sas cluster_ids)
    (observed_keys_now sas saCache keys) secrets

/-- The items the API-key creation loop iterates
(task_generator.py line 106): one per element of the final creation set. -/
def create_api_key_task_items (api_keys_in_def api_keys_in_ccloud : Finset String)
    (secrets : List CSMSecret) : List String :=
  finsetToList (create_api_keys_req_final api_keys_in_def api_keys_in_ccloud secrets)

/-- A task emitted for an API key (the payload fields shared by the creation
and the two deletion streams of `CSMAPIKeyTasks`). -/
structure CSMApiKeyTaskObj where
  task_type : CSMConfigTaskType
  object_type : CSMConfigObjectType
  sa_name : String
  cluster_id : String
  api_key : String
deriving DecidableEq, Repr

/-- The declaration-scoped orphan deletion stream of
`CSMAPIKeyTasks.delete_api_key_tasks` (task_generator.py lines 126-140 and
157-169): diff `observed − declared`, drop composites whose SA name is
ignore-listed, then emit one deletion task per matching observed key. -/
def orphan_delete_tasks (api_keys_in_def api_keys_in_ccloud : Finset String)
    (saCache : SACache) (keys : List CCloudAPIKey)
    (ignore_list : List String) : List CSMApiKeyTaskObj :=
  let ignore_sa_list := ignore_sa_names saCache ignore_list
  let deletion_eligible :=
    (find_items_to_be_deleted api_keys_in_def api_keys_in_ccloud).filter
      (fun item => (splitTildeOnce item).1 ∉ ignore_sa_list)
  (finsetToList deletion_eligible).flatMap (fun item =>
    let sa_name := (splitTildeOnce item).1
    let cluster_id := (splitTildeOnce item).2
    (find_keys_with_sa_and_cluster keys (find_sa saCache sa_name)
        cluster_id).map
      (fun key =>
        { task_type := CSMConfigTaskType.delete_task
          object_type := CSMConfigObjectType.api_key_type
          sa_name := sa_name
          cluster_id := cluster_id
          api_key := key.api_key }))

/-- The api-key ids of the secret-store entries
(task_generator.py line 143): `str(f"{item.api_key}")` per secret. -/
def curr_secret_key_ids (secrets : List CSMSecret) : Finset String :=
  (secrets.map (fun item => item.api_key)).toFinset

/-- The aged provider-wide key ids (task_generator.py lines 145-153): every
key of the full inventory whose age in minutes strictly exceeds the
configured threshold and whose owner's resource id is not ignore-listed.
`age_mins` stands for `mins_since_api_key_creation` (api_key_manager, not
under src/), modelled from the spec as the key's age in minutes. -/
def curr_aged_api_keys (keyDict : List (String × CCloudAPIKey))
    (age_mins : String → Int) (threshold : Int) (ignore_list : List String) :
    Finset String :=
  ((keyDict.filter (fun kv =>
      decide (age_mins kv.1 > threshold) &&
        !(decide (kv.2.owner_id ∈ ignore_list)))).map Prod.fst).toFinset

/-- The aged-key cleanup emission loop (task_generator.py lines 170-184):
for each mismatched key id, look it up in the inventory (a missing id is
skipped by the `if api_key_details:` guard), resolve its owner in the
service-account cache — Python reads `.name` off the result with no guard,
so a missing owner raises, modelled as `Except.error` — and emit a deletion
task. -/
def aged_emit (saCache : SACache) (keyDict : List (String × CCloudAPIKey)) :
    List String → Except String (List CSMApiKeyTaskObj)
  | [] => Except.ok []
  | item :: rest =>
    match dictGet keyDict item with
    | none => aged_emit saCache keyDict rest
    | some kd =>
      match dictGet saCache kd.owner_id with
      | none => Except.error "AttributeError: NoneType object has no attribute name"
      | some sad =>
        match aged_emit saCache keyDict rest with
        | Except.error e => Except.error e
        | Except.ok ts =>
          Except.ok
            ({ task_type := CSMConfigTaskType.delete_task
               object_type := CSMConfigObjectType.api_key_type
               sa_name := sad.name
               cluster_id := kd.cluster_id
               api_key := kd.api_key } :: ts)

/-- The aged-key cleanup stream of `CSMAPIKeyTasks.delete_api_key_tasks`
(task_generator.py lines 141-156 and 170-184): key ids that are aged and
not ignore-listed, minus those present in the secret store, then emitted. -/
def aged_cleanup_tasks (saCache : SACache)
    (keyDict : List (String × CCloudAPIKey)) (age_mins : String → Int)
    (threshold : Int) (ignore_list : List String)
    (secrets : List CSMSecret) : Except String (List CSMApiKeyTaskObj) :=
  aged_emit saCache keyDict
    (finsetToList (find_items_to_be_deleted (curr_secret_key_ids secrets)
      (curr_aged_api_keys keyDict age_mins threshold ignore_list)))

/-- The whole of `CSMAPIKeyTasks.delete_api_key_tasks` (task_generator.py
lines 125-184): the orphan stream's tasks followed by the aged-key cleanup
stream's. -/
def delete_api_key_tasks (st : CSMAPIKeyTasksState) (saCache : SACache)
    (keyDict : List (String × CCloudAPIKey)) (age_mins : String → Int)
    (threshold : Int) (ignore_list : List String)
    (secrets : List CSMSecret) : Except String (List CSMApiKeyTaskObj) :=
  match aged_cleanup_tasks saCache keyDict age_mins threshold ignore_list secrets with
  | Except.error e => Except.error e
  | Except.ok aged =>
    Except.ok
      (orphan_delete_tasks st.api_keys_in_def st.api_keys_in_ccloud saCache
        (keyDict.map Prod.snd) ignore_list ++ aged)

/-- `check_pair` (app_managers/helpers.py lines 43-46), with each value's
Python truthiness as a Bool: raises unless both values are truthy (the
both-absent case raises too). -/
def check_pair (key1Name : String) (key1Value : Bool) (key2Name : String)
    (key2Value : Bool) : Except String Unit :=
  if (key1Value && !key2Value) || (!key1Value && key2Value) ||
      (!key1Value && !key2Value) then
    Except.error
      ("Both " ++ key1Name ++ " & " ++ key2Name ++ " must be present in the configuration.")
  else
    Except.ok ()

/-- `WorkflowManager.create_service_accounts` (workflows.py lines 34-51)
with `dry_run = False`: one effector call per generated task, the provider's
reply per task given as a list.  A successful creation marks the task
Success; a found-in-cache result leaves it Not Started; an exception from
`create_sa` propagates uncaught, so the remaining tasks are never reached. -/
def run_create_sa_phase (cache : SACache) :
    List (String × SAHttpResponse) →
    Except String (SACache × List CSMConfigTaskStatus)
  | [] => Except.ok (cache, [])
  | (sa_name, resp) :: rest =>
    match create_sa cache sa_name resp with
    | Except.error e => Except.error e
    | Except.ok (cache', _, is_success) =>
      match run_create_sa_phase cache' rest with
      | Except.error e => Except.error e
      | Except.ok (cache'', sts) =>
        Except.ok (cache'',
          (if is_success then CSMConfigTaskStatus.sts_success
           else CSMConfigTaskStatus.sts_not_started) :: sts)

/-- The wildcard declaration used to exercise the refresh bug: SA `X`
declared over every currently known cluster. -/
def c2DefX : CSMDefSA :=
  { name := "X", description := "", cluster_list := ["FORCE_ALL_CLUSTERS"],
    is_rp_user := false, rp_access := false }

/-- The `CSMAPIKeyTasks` sets after a first refresh with known clusters
c1, c2, c3. -/
def c2State1 : CSMAPIKeyTasksState :=
  CSMAPIKeyTasksState.initial.refresh_set_values [c2DefX] ["c1", "c2", "c3"] [] []

/-- The sets after a second refresh in which cluster c3 is no longer
known. -/
def c2State2 : CSMAPIKeyTasksState :=
  c2State1.refresh_set_values [c2DefX] ["c1", "c2"] [] []

/-- The ignore-listed observed account of the ignore-protection witness:
present in the provider, absent from the declaration. -/
def c3sa : CCloudServiceAccount :=
  { resource_id := "sa-ign", name := "ghost", description := "",
    created_at := "", updated_at := "", is_ignored := true }

/-- The owner service account of the aged-key cleanup witness. -/
def c4sa : CCloudServiceAccount :=
  { resource_id := "sa-1", name := "svc-a", description := "",
    created_at := "", updated_at := "", is_ignored := false }

/-- The aged observed key of the aged-key cleanup witness: 61 minutes old
against a 60-minute threshold, owner not ignored, absent from the store. -/
def c4key : CCloudAPIKey :=
  { api_key := "key-1", owner_id := "sa-1", cluster_id := "lkc-1" }

/-- The observed account of the duplicate-deletion counterexample. -/
def c8sa : CCloudServiceAccount :=
  { resource_id := "sa-1", name := "X", description := "",
    created_at := "", updated_at := "", is_ignored := false }

/-- The observed key of the duplicate-deletion counterexample: owned by X
on cluster c1, 100 minutes old, absent from the secret store. -/
def c8key : CCloudAPIKey :=
  { api_key := "key-1", owner_id := "sa-1", cluster_id := "c1" }

/-- The declaration of the duplicate-deletion counterexample: X is declared
only on cluster c2, so its key on c1 is an orphan. -/
def c8def : CSMDefSA :=
  { name := "X", description := "", cluster_list := ["c2"],
    is_rp_user := false, rp_access := false }

/-- The refreshed `CSMAPIKeyTasks` sets of the counterexample. -/
def c8state : CSMAPIKeyTasksState :=
  CSMAPIKeyTasksState.initial.refresh_set_values [c8def] ["c1", "c2"]
    [("sa-1", c8sa)] [c8key]

theorem dictGet_mem {α : Type} {l : List (String × α)} {k : String} {v : α}
    (h : dictGet l k = some v) : (k, v) ∈ l := by
  induction l with
  | nil => simp [dictGet] at h
  | cons hd tl ih =>
    obtain ⟨k', v'⟩ := hd
    rw [dictGet] at h
    split at h
    · next hk =>
      injection h with h2
      subst h2
      subst hk
      exact List.mem_cons_self _ _
    · next _ => exact List.mem_cons_of_mem _ (ih h)

theorem mem_finsetToList {a : String} {s : Finset String} :
    a ∈ finsetToList s ↔ a ∈ s := by
  obtain ⟨m, hm⟩ := s
  induction m using Quot.inductionOn with
  | h l =>
    show a ∈ List.insertionSort _ l ↔ _
    rw [(List.perm_insertionSort _ l).mem_iff]
    rfl

theorem nodup_finsetToList (s : Finset String) : (finsetToList s).Nodup := by
  obtain ⟨m, hm⟩ := s
  induction m using Quot.inductionOn with
  | h l =>
    exact (List.perm_insertionSort _ l).nodup_iff.2 hm

theorem find_sa_insert (cache : SACache) (k : String) (v : CCloudServiceAccount)
    (sa_name : String) (hnone : find_sa cache sa_name = none)
    (hname : sa_name = v.name) :
    find_sa (dictInsert cache k v) sa_name = some v := by
  induction cache with
  | nil => simp [dictInsert, find_sa, hname]
  | cons hd tl ih =>
    obtain ⟨k', v'⟩ := hd
    rw [find_sa] at hnone
    split at hnone
    · exact absurd hnone (by simp)
    · next hp =>
      rw [dictInsert]
      by_cases hk : k' = k
      · rw [if_pos hk, find_sa, if_pos hname]
      · rw [if_neg hk, find_sa, if_neg hp]
        exact ih hnone

theorem nodup_keys_val_eq {α : Type} {l : List (String × α)}
    (h : (l.map Prod.fst).Nodup) {k : String} {a b : α}
    (ha : (k, a) ∈ l) (hb : (k, b) ∈ l) : a = b := by
  induction l with
  | nil => simp at ha
  | cons hd tl ih =>
    obtain ⟨hk, hv⟩ := hd
    rw [List.map_cons, List.nodup_cons] at h
    rcases List.mem_cons.1 ha with ha1 | ha2
    · rcases List.mem_cons.1 hb with hb1 | hb2
      · injection ha1 with e1 e2
        injection hb1 with e3 e4
        rw [e2, e4]
      · exfalso
        injection ha1 with e1 e2
        exact h.1 (List.mem_map.2 ⟨(k, b), hb2, e1⟩)
    · rcases List.mem_cons.1 hb with hb1 | hb2
      · exfalso
        injection hb1 with e1 e2
        exact h.1 (List.mem_map.2 ⟨(k, a), ha2, e1⟩)
      · exact ih h.2 ha2 hb2

theorem mem_map_fst_filter {α : Type} {l : List (String × α)}
    (p : String × α → Bool) (h : (l.map Prod.fst).Nodup) {k : String} {v : α}
    (hk : dictGet l k = some v) :
    (k ∈ (l.filter p).map Prod.fst) ↔ p (k, v) = true := by
  constructor
  · intro hmem
    obtain ⟨kv, hkv, hfst⟩ := List.mem_map.1 hmem
    obtain ⟨hkvmem, hp⟩ := List.mem_filter.1 hkv
    obtain ⟨k1, v1⟩ := kv
    dsimp only at hfst
    subst hfst
    have hv1 : v1 = v := nodup_keys_val_eq h hkvmem (dictGet_mem hk)
    subst hv1
    exact hp
  · intro hp
    exact List.mem_map_of_mem Prod.fst
      (List.mem_filter.2 ⟨dictGet_mem hk, hp⟩)

theorem mem_ignore_sa_names {saCache : SACache} {ignore_list : List String}
    {acc : CCloudServiceAccount} (hmem : acc ∈ saCache.map Prod.snd)
    (hign : acc.resource_id ∈ ignore_list) :
    acc.name ∈ ignore_sa_names saCache ignore_list := by
  have hin : acc ∈ (saCache.map Prod.snd).filter
      (fun item => decide (item.resource_id ∈ ignore_list)) :=
    List.mem_filter.2 ⟨hmem, by simp [hign]⟩
  exact List.mem_toFinset.2 (List.mem_map_of_mem (fun item => item.name) hin)

theorem orphan_delete_tasks_sa_name (api_keys_in_def api_keys_in_ccloud : Finset String)
    (saCache : SACache) (keys : List CCloudAPIKey) (ignore_list : List String)
    {t : CSMApiKeyTaskObj}
    (ht : t ∈ orphan_delete_tasks api_keys_in_def api_keys_in_ccloud saCache
      keys ignore_list) :
    t.sa_name ∉ ignore_sa_names saCache ignore_list := by
  simp only [orphan_delete_tasks] at ht
  obtain ⟨item, hitem, htm⟩ := List.mem_flatMap.1 ht
  rw [mem_finsetToList, Finset.mem_filter] at hitem
  obtain ⟨key, hkey, rfl⟩ := List.mem_map.1 htm
  exact hitem.2

theorem aged_emit_ok (saCache : SACache)
    (keyDict : List (String × CCloudAPIKey)) (l : List String)
    (howner : ∀ kv ∈ keyDict, (dictGet saCache kv.2.owner_id).isSome) :
    ∃ ts, aged_emit saCache keyDict l = Except.ok ts ∧
      ∀ x, (∃ t ∈ ts, CSMApiKeyTaskObj.api_key t = x) ↔
        ∃ item ∈ l, ∃ v, dictGet keyDict item = some v ∧
          CCloudAPIKey.api_key v = x := by
  induction l with
  | nil => exact ⟨[], rfl, by simp⟩
  | cons item rest ih =>
    obtain ⟨ts, hts, hiff⟩ := ih
    cases hkd : dictGet keyDict item with
    | none =>
      refine ⟨ts, ?_, ?_⟩
      · rw [aged_emit, hkd]
        exact hts
      · intro x
        rw [hiff x]
        constructor
        · rintro ⟨i, hi, v, hv, hvx⟩
          exact ⟨i, List.mem_cons_of_mem _ hi, v, hv, hvx⟩
        · rintro ⟨i, hi, v, hv, hvx⟩
          rcases List.mem_cons.1 hi with h1 | h2
          · subst h1
            rw [hkd] at hv
            cases hv
          · exact ⟨i, h2, v, hv, hvx⟩
    | some kd =>
      have hs : (dictGet saCache kd.owner_id).isSome :=
        howner (item, kd) (dictGet_mem hkd)
      obtain ⟨sad, hsad⟩ := Option.isSome_iff_exists.1 hs
      refine ⟨{ task_type := CSMConfigTaskType.delete_task,
                object_type := CSMConfigObjectType.api_key_type,
                sa_name := sad.name, cluster_id := kd.cluster_id,
                api_key := kd.api_key } :: ts, ?_, ?_⟩
      · rw [aged_emit, hkd]
        dsimp only
        rw [hsad, hts]
      · intro x
        constructor
        · rintro ⟨t, ht, hx⟩
          rcases List.mem_cons.1 ht with h1 | h2
          · subst h1
            exact ⟨item, List.mem_cons_self _ _, kd, hkd, hx⟩
          · obtain ⟨i, hi, v, hv, hvx⟩ := (hiff x).1 ⟨t, h2, hx⟩
            exact ⟨i, List.mem_cons_of_mem _ hi, v, hv, hvx⟩
        · rintro ⟨i, hi, v, hv, hvx⟩
          rcases List.mem_cons.1 hi with h1 | h2
          · subst h1
            rw [hkd] at hv
            injection hv with hv
            subst hv
            exact ⟨_, List.mem_cons_self _ _, hvx⟩
          · obtain ⟨t, ht, hx⟩ := (hiff x).2 ⟨i, h2, v, hv, hvx⟩
            exact ⟨t, List.mem_cons_of_mem _ ht, hx⟩

theorem aged_emit_tasks_from (saCache : SACache)
    (keyDict : List (String × CCloudAPIKey)) (l : List String)
    (ts : List CSMApiKeyTaskObj)
    (h : aged_emit saCache keyDict l = Except.ok ts) :
    ∀ t ∈ ts, ∃ item ∈ l, ∃ v sad, dictGet keyDict item = some v ∧
      dictGet saCache (CCloudAPIKey.owner_id v) = some sad ∧
      t = { task_type := CSMConfigTaskType.delete_task,
            object_type := CSMConfigObjectType.api_key_type,
            sa_name := sad.name, cluster_id := v.cluster_id,
            api_key := v.api_key } := by
  induction l generalizing ts with
  | nil =>
    rw [aged_emit] at h
    injection h with h
    subst h
    intro t ht
    simp at ht
  | cons item rest ih =>
    rw [aged_emit] at h
    split at h
    · intro t ht
      obtain ⟨i, hi, v, sad, h1, h2, h3⟩ := ih ts h t ht
      exact ⟨i, List.mem_cons_of_mem _ hi, v, sad, h1, h2, h3⟩
    · next kd hkd =>
      split at h
      · cases h
      · next sad hsad =>
        split at h
        · cases h
        · next ts2 hrec =>
          injection h with h
          subst h
          intro t ht
          rcases List.mem_cons.1 ht with h1 | h2
          · exact ⟨item, List.mem_cons_self _ _, kd, sad, hkd, hsad, h1⟩
          · obtain ⟨i, hi, v, sad2, ha, hb, hc⟩ := ih ts2 hrec t h2
            exact ⟨i, List.mem_cons_of_mem _ hi, v, sad2, ha, hb, hc⟩

/-- Claim C9 counterexample: with both paired values absent, `check_pair`
raises the fatal configuration error rather than passing, contradicting the
claim that validation passes when both values are absent. -/
theorem c9_check_pair_both_absent_cex :
    check_pair "key1" false "key2" false =
      Except.error "Both key1 & key2 must be present in the configuration." ∧
    check_pair "key1" false "key2" false ≠ Except.ok () := by
  constructor
  · rfl
  · intro h
    simp [check_pair] at h

/-- Claim C9 (amended): `check_pair` passes (returns without raising)
exactly when both values are present; it raises the fatal error when either
value is absent — including the case where both are absent. -/
theorem c9_check_pair_iff_amended (key1Name : String) (key1Value : Bool)
    (key2Name : String) (key2Value : Bool) :
    check_pair key1Name key1Value key2Name key2Value = Except.ok () ↔
      (key1Value = true ∧ key2Value = true) := by
  cases key1Value <;> cases key2Value <;> simp [check_pair]

/-- Claim C5 counterexample: `delete_sa` on a name with no matching service
account completes without error and without changing the cache, but reports
`False` — not success — contradicting the claim that such a deletion
reports success. -/
theorem c5_delete_absent_reports_false_cex :
    delete_sa [] "svc-a" 204 "resp" = Except.ok ([], false) ∧
    delete_sa [] "svc-a" 204 "resp" ≠ Except.ok ([], true) := by
  constructor
  · rfl
  · intro h
    simp [delete_sa, find_sa] at h

/-- Claim C5 (amended): a delete targeting an already-absent service
account is a no-op that raises no error and changes no state, but it
returns `False` (reported as not-success, leaving the task unresolved)
rather than reporting success. -/
theorem c5_delete_absent_noop_amended (cache : SACache) (sa_name : String)
    (resp_status : Nat) (resp_text : String)
    (h : find_sa cache sa_name = none) :
    delete_sa cache sa_name resp_status resp_text = Except.ok (cache, false) := by
  unfold delete_sa
  rw [h]

/-- Claim C5 witness: the amended theorem at a concrete absent name. -/
theorem c5_delete_absent_noop_amended_witness :
    find_sa [] "svc-a" = none ∧
    delete_sa [] "svc-a" 500 "err" = Except.ok ([], false) :=
  ⟨rfl, c5_delete_absent_noop_amended [] "svc-a" 500 "err" rfl⟩

/-- Claim C7 counterexample: `set_task_status` applied through the ledger
interface moves a task from Success to Failed — a transition the claim says
does not exist (a resolved task's status changes again). -/
theorem c7_status_overwrite_cex :
    set_task_status
        (add_new_task [] CSMConfigTaskType.create_task
          CSMConfigObjectType.sa_type CSMConfigTaskStatus.sts_not_started [])
        0 CSMConfigTaskStatus.sts_success "done" [] =
      some [{ task_type := CSMConfigTaskType.create_task,
              object_type := CSMConfigObjectType.sa_type,
              status := CSMConfigTaskStatus.sts_success,
              status_message := "done", task_object := [] }] ∧
    set_task_status
        [{ task_type := CSMConfigTaskType.create_task,
           object_type := CSMConfigObjectType.sa_type,
           status := CSMConfigTaskStatus.sts_success,
           status_message := "done", task_object := [] }]
        0 CSMConfigTaskStatus.sts_failed "redone" [] =
      some [{ task_type := CSMConfigTaskType.create_task,
              object_type := CSMConfigObjectType.sa_type,
              status := CSMConfigTaskStatus.sts_failed,
              status_message := "redone", task_object := [] }] :=
  ⟨rfl, rfl⟩

/-- Claim C7 (amended): `set_task_status` overwrites a task's status with
whatever status it is given, unconditionally — the ledger enforces no
transition discipline (the enum even includes an In Progress state), so
any transition, including out of Success or Failed, can occur through the
interface; the not_started to success/failed discipline holds only by the
orchestrator's calling convention. -/
theorem c7_set_task_status_overwrites_amended (tasks : List CSMConfigTask)
    (task_key : Nat) (task_status : CSMConfigTaskStatus) (status_msg : String)
    (object_payload : List (String × String)) (t : CSMConfigTask)
    (h : tasks.get? task_key = some t) :
    set_task_status tasks task_key task_status status_msg object_payload =
      some (tasks.set task_key
        { t with status := task_status, status_message := status_msg,
                 task_object := if object_payload = [] then t.task_object
                                else object_payload }) := by
  unfold set_task_status
  rw [h]

/-- Claim C7 witness: the amended theorem at a concrete ledger, moving a
task into the In Progress state the claim's transition system omits. -/
theorem c7_set_task_status_overwrites_amended_witness :
    [({ task_type := CSMConfigTaskType.create_task,
        object_type := CSMConfigObjectType.sa_type,
        status := CSMConfigTaskStatus.sts_failed,
        status_message := "m", task_object := [] } : CSMConfigTask)].get? 0 =
      some { task_type := CSMConfigTaskType.create_task,
             object_type := CSMConfigObjectType.sa_type,
             status := CSMConfigTaskStatus.sts_failed,
             status_message := "m", task_object := [] } ∧
    set_task_status
        [{ task_type := CSMConfigTaskType.create_task,
           object_type := CSMConfigObjectType.sa_type,
           status := CSMConfigTaskStatus.sts_failed,
           status_message := "m", task_object := [] }]
        0 CSMConfigTaskStatus.sts_in_progress "working" [] =
      some [{ task_type := CSMConfigTaskType.create_task,
              object_type := CSMConfigObjectType.sa_type,
              status := CSMConfigTaskStatus.sts_in_progress,
              status_message := "working", task_object := [] }] :=
  ⟨rfl, c7_set_task_status_overwrites_amended
    [{ task_type := CSMConfigTaskType.create_task,
       object_type := CSMConfigObjectType.sa_type,
       status := CSMConfigTaskStatus.sts_failed,
       status_message := "m", task_object := [] }]
    0 CSMConfigTaskStatus.sts_in_progress "working" []
    { task_type := CSMConfigTaskType.create_task,
      object_type := CSMConfigObjectType.sa_type,
      status := CSMConfigTaskStatus.sts_failed,
      status_message := "m", task_object := [] } rfl⟩

/-- Claim C6 counterexample: a non-success provider response on the first
service-account creation task makes the phase return the raised exception,
and the sibling task (whose response would have succeeded) is never
executed — contradicting the claim that a non-success response never
escapes as a crash and that sibling tasks still execute. -/
theorem c6_nonsuccess_crashes_cex :
    run_create_sa_phase []
        [("svc-a", { status_code := 500, id := "", display_name := "",
                     description := "", created_at := "", updated_at := "",
                     text := "Service Unavailable" }),
         ("svc-b", { status_code := 201, id := "sa-2", display_name := "svc-b",
                     description := "", created_at := "", updated_at := "",
                     text := "" })] =
      Except.error
        "Could not connect to Confluent Cloud. Please check your settings. Service Unavailable" :=
  rfl

/-- Claim C6 (amended): a non-success provider response is not surfaced as
a per-task failure: `create_sa` raises (the exception the orchestrator does
not catch), so the creation phase aborts with that error and the tasks after
the failing one are never executed. -/
theorem c6_nonsuccess_raises_amended (cache : SACache) (sa_name : String)
    (resp : SAHttpResponse) (rest : List (String × SAHttpResponse))
    (hfind : find_sa cache sa_name = none) (hcode : resp.status_code ≠ 201) :
    run_create_sa_phase cache ((sa_name, resp) :: rest) =
      Except.error
        ("Could not connect to Confluent Cloud. Please check your settings. " ++ resp.text) := by
  rw [run_create_sa_phase]
  unfold create_sa
  rw [hfind, if_neg hcode]

/-- Claim C6 witness: the amended theorem at a concrete failing response
with a sibling task behind it. -/
theorem c6_nonsuccess_raises_amended_witness :
    find_sa [] "svc-a" = none ∧ (500 : Nat) ≠ 201 ∧
    run_create_sa_phase []
        [("svc-a", { status_code := 500, id := "", display_name := "",
                     description := "", created_at := "", updated_at := "",
                     text := "boom" }),
         ("svc-b", { status_code := 201, id := "sa-2", display_name := "svc-b",
                     description := "", created_at := "", updated_at := "",
                     text := "" })] =
      Except.error
        "Could not connect to Confluent Cloud. Please check your settings. boom" :=
  ⟨rfl, by decide,
    c6_nonsuccess_raises_amended [] "svc-a" _ _ rfl (by decide)⟩

/-- Claim C10: when the requested name is already in the observed cache,
`create_sa` returns the cached account paired with `False`, consults the
provider response for nothing (no creation request is issued) and leaves
the cache unchanged; consequently a successful creation followed by a
second `create_sa` with the same name (the provider echoing the name back)
creates nothing further — creation is idempotent at the public interface. -/
theorem c10_create_sa_idempotent (cache : SACache) (sa_name : String)
    (resp : SAHttpResponse) :
    (∀ acc, find_sa cache sa_name = some acc →
      create_sa cache sa_name resp = Except.ok (cache, acc, false)) ∧
    (find_sa cache sa_name = none → resp.status_code = 201 →
      resp.display_name = sa_name →
      ∃ cache2 v, create_sa cache sa_name resp = Except.ok (cache2, v, true) ∧
        ∀ resp2, create_sa cache2 sa_name resp2 = Except.ok (cache2, v, false)) := by
  constructor
  · intro acc h
    unfold create_sa
    rw [h]
  · intro hnone hcode hdisp
    have hname : sa_name =
        ({ resource_id := resp.id, name := resp.display_name,
           description := resp.description, created_at := resp.created_at,
           updated_at := resp.updated_at,
           is_ignored := false } : CCloudServiceAccount).name := by
      simp [hdisp]
    refine ⟨dictInsert cache resp.id
        { resource_id := resp.id, name := resp.display_name,
          description := resp.description, created_at := resp.created_at,
          updated_at := resp.updated_at, is_ignored := false },
      { resource_id := resp.id, name := resp.display_name,
        description := resp.description, created_at := resp.created_at,
        updated_at := resp.updated_at, is_ignored := false }, ?_, ?_⟩
    · unfold create_sa
      rw [hnone, if_pos hcode]
    · intro resp2
      unfold create_sa
      rw [find_sa_insert cache resp.id _ sa_name hnone hname]

/-- Claim C1: the final API-key creation set is exactly
`create_req ∪ (create_secrets_req − create_req)` (the base diff united with
the force-recreate remainder), and a composite key that is declared, absent
from the observed provider keys and absent from the secret store appears
exactly once among the items the creation loop iterates. -/
theorem c1_force_recreate_union (api_keys_in_def api_keys_in_ccloud : Finset String)
    (secrets : List CSMSecret) (k : String)
    (hdecl : k ∈ api_keys_in_def) (hobs : k ∉ api_keys_in_ccloud)
    (hstore : k ∉ secrets_in_store_of secrets) :
    create_api_keys_req_final api_keys_in_def api_keys_in_ccloud secrets =
      find_items_to_be_created api_keys_in_def api_keys_in_ccloud ∪
        (find_items_to_be_created api_keys_in_def (secrets_in_store_of secrets) \
          find_items_to_be_created api_keys_in_def api_keys_in_ccloud) ∧
    k ∈ create_api_keys_req_final api_keys_in_def api_keys_in_ccloud secrets ∧
    (create_api_key_task_items api_keys_in_def api_keys_in_ccloud
        secrets).count k = 1 := by
  have hmem : k ∈ create_api_keys_req_final api_keys_in_def api_keys_in_ccloud secrets := by
    simp [create_api_keys_req_final, find_items_to_be_created, hdecl, hobs, hstore]
  refine ⟨rfl, hmem, ?_⟩
  exact List.count_eq_one_of_mem (nodup_finsetToList _) (mem_finsetToList.2 hmem)

/-- Claim C1 witness: a declared composite key missing from both the
provider and the secret store lands exactly once in the creation items. -/
theorem c1_force_recreate_union_witness :
    "svc-a~lkc-1" ∈ declared_keys_now
        [{ name := "svc-a", description := "", cluster_list := ["lkc-1"],
           is_rp_user := false, rp_access := false }] ["lkc-1"] ∧
    "svc-a~lkc-1" ∉ (∅ : Finset String) ∧
    "svc-a~lkc-1" ∉ secrets_in_store_of [] ∧
    (create_api_key_task_items
        (declared_keys_now
          [{ name := "svc-a", description := "", cluster_list := ["lkc-1"],
             is_rp_user := false, rp_access := false }] ["lkc-1"])
        ∅ []).count "svc-a~lkc-1" = 1 :=
  ⟨by decide, by decide, by decide,
    (c1_force_recreate_union _ ∅ [] "svc-a~lkc-1" (by decide) (by decide)
      (by decide)).2.2⟩

/-- Claim C3: a service account whose resource id is ignore-listed is
protected from every deletion stream even when its name is absent from the
declaration: its name never enters the service-account deletion set — the
raw diff `observed − declared` with the ignore-listed names then removed —
no declaration-scoped orphan API-key deletion task carries its name, and
(over a well-formed inventory) every aged-key cleanup task deletes a key
whose owner is not the ignored account. -/
theorem c3_ignore_list_protection (sa_in_def : Finset String)
    (saCache : SACache) (ignore_list : List String)
    (api_keys_in_def api_keys_in_ccloud : Finset String)
    (keyDict : List (String × CCloudAPIKey)) (age_mins : String → Int)
    (threshold : Int) (secrets : List CSMSecret)
    (acc : CCloudServiceAccount) (hmem : acc ∈ saCache.map Prod.snd)
    (hign : acc.resource_id ∈ ignore_list) :
    (acc.name ∉
      delete_service_account_names sa_in_def (sa_in_ccloud_now saCache)
        saCache ignore_list) ∧
    (∀ n, n ∈ delete_service_account_names sa_in_def (sa_in_ccloud_now saCache)
        saCache ignore_list ↔
      (n ∈ sa_in_ccloud_now saCache ∧ n ∉ sa_in_def ∧
        n ∉ ignore_sa_names saCache ignore_list)) ∧
    (∀ t ∈ orphan_delete_tasks api_keys_in_def api_keys_in_ccloud saCache
        (keyDict.map Prod.snd) ignore_list,
      CSMApiKeyTaskObj.sa_name t ≠ acc.name) ∧
    ((keyDict.map Prod.fst).Nodup →
      (∀ kv ∈ keyDict, CCloudAPIKey.api_key kv.2 = kv.1) →
      ∀ ts, aged_cleanup_tasks saCache keyDict age_mins threshold ignore_list
          secrets = Except.ok ts →
        ∀ t ∈ ts, ∃ v, dictGet keyDict (CSMApiKeyTaskObj.api_key t) = some v ∧
          CCloudAPIKey.owner_id v ≠ acc.resource_id) := by
  have hchar : ∀ n,
      n ∈ delete_service_account_names sa_in_def (sa_in_ccloud_now saCache)
          saCache ignore_list ↔
        (n ∈ sa_in_ccloud_now saCache ∧ n ∉ sa_in_def ∧
          n ∉ ignore_sa_names saCache ignore_list) := by
    intro n
    simp only [delete_service_account_names, find_items_to_be_deleted,
      Finset.mem_sdiff]
    tauto
  have hignmem := mem_ignore_sa_names hmem hign
  refine ⟨?_, hchar, ?_, ?_⟩
  · intro hcontra
    exact ((hchar acc.name).1 hcontra).2.2 hignmem
  · intro t ht hteq
    exact orphan_delete_tasks_sa_name api_keys_in_def api_keys_in_ccloud
      saCache (keyDict.map Prod.snd) ignore_list ht (hteq ▸ hignmem)
  · intro hnodup hkeyed ts hts t ht
    rw [aged_cleanup_tasks] at hts
    obtain ⟨item, hitem, v, sad, hv, hsad, rfl⟩ :=
      aged_emit_tasks_from saCache keyDict _ ts hts t ht
    have hvk : v.api_key = item := hkeyed (item, v) (dictGet_mem hv)
    refine ⟨v, ?_, ?_⟩
    · show dictGet keyDict v.api_key = some v
      rw [hvk]
      exact hv
    · rw [mem_finsetToList, find_items_to_be_deleted, Finset.mem_sdiff] at hitem
      have haged := hitem.1
      rw [curr_aged_api_keys, List.mem_toFinset] at haged
      have hp := (mem_map_fst_filter _ hnodup hv).1 haged
      simp only [Bool.and_eq_true, decide_eq_true_eq, Bool.not_eq_true',
        decide_eq_false_iff_not] at hp
      intro heq
      apply hp.2
      rw [heq]
      exact hign

/-- Claim C3 witness: a concrete ignore-listed account, present in the
provider but absent from the declaration, is protected from all three
deletion streams. -/
theorem c3_ignore_list_protection_witness :
    (c3sa.name ∉
      delete_service_account_names ∅ (sa_in_ccloud_now [("sa-ign", c3sa)])
        [("sa-ign", c3sa)] ["sa-ign"]) ∧
    (∀ n, n ∈ delete_service_account_names ∅
        (sa_in_ccloud_now [("sa-ign", c3sa)]) [("sa-ign", c3sa)] ["sa-ign"] ↔
      (n ∈ sa_in_ccloud_now [("sa-ign", c3sa)] ∧ n ∉ (∅ : Finset String) ∧
        n ∉ ignore_sa_names [("sa-ign", c3sa)] ["sa-ign"])) ∧
    (∀ t ∈ orphan_delete_tasks ∅ ∅ [("sa-ign", c3sa)]
        (([] : List (String × CCloudAPIKey)).map Prod.snd) ["sa-ign"],
      CSMApiKeyTaskObj.sa_name t ≠ c3sa.name) ∧
    ((([] : List (String × CCloudAPIKey)).map Prod.fst).Nodup →
      (∀ kv ∈ ([] : List (String × CCloudAPIKey)),
        CCloudAPIKey.api_key kv.2 = kv.1) →
      ∀ ts, aged_cleanup_tasks [("sa-ign", c3sa)] [] (fun _ => 0) 0
          ["sa-ign"] [] = Except.ok ts →
        ∀ t ∈ ts, ∃ v, dictGet [] (CSMApiKeyTaskObj.api_key t) = some v ∧
          CCloudAPIKey.owner_id v ≠ c3sa.resource_id) :=
  c3_ignore_list_protection ∅ [("sa-ign", c3sa)] ["sa-ign"] ∅ ∅ []
    (fun _ => 0) 0 [] c3sa (by decide) (by decide)

/-- Claim C2, evaluated at the failing input: after the second refresh the
declared composite-key set still contains `X~c3`, retained from the first
refresh, although the current-phase expansion of the declaration no longer
produces it — `refresh_set_values` only unions into the never-cleared
class-level set, so the expansion is not the claimed exact per-phase set. -/
theorem c2_wildcard_refresh_stale_eval :
    c2State2.api_keys_in_def = {"X~c1", "X~c2", "X~c3"} ∧
    "X~c3" ∈ c2State2.api_keys_in_def ∧
    "X~c3" ∉ declared_keys_now [c2DefX] ["c1", "c2"] := by
  refine ⟨?_, by decide, by decide⟩
  decide

/-- Claim C4: over a well-formed inventory (the key dict is keyed by the
key id without duplicates and every key's owner resolves in the
service-account cache), the aged-key cleanup scan emits a deletion task for
an observed key exactly when its age in minutes strictly exceeds the
configured threshold, its owner's resource id is not ignore-listed, and its
key id is absent from the current secret-store key set. -/
theorem c4_aged_key_cleanup_iff (saCache : SACache)
    (keyDict : List (String × CCloudAPIKey)) (age_mins : String → Int)
    (threshold : Int) (ignore_list : List String) (secrets : List CSMSecret)
    (K : String) (V : CCloudAPIKey)
    (hnodup : (keyDict.map Prod.fst).Nodup)
    (hkeyed : ∀ kv ∈ keyDict, CCloudAPIKey.api_key kv.2 = kv.1)
    (howner : ∀ kv ∈ keyDict, (dictGet saCache kv.2.owner_id).isSome)
    (hK : dictGet keyDict K = some V) :
    ∃ ts, aged_cleanup_tasks saCache keyDict age_mins threshold ignore_list
        secrets = Except.ok ts ∧
      ((∃ t ∈ ts, CSMApiKeyTaskObj.api_key t = K) ↔
        (age_mins K > threshold ∧ V.owner_id ∉ ignore_list ∧
          K ∉ curr_secret_key_ids secrets)) := by
  obtain ⟨ts, hts, hiff⟩ := aged_emit_ok saCache keyDict
    (finsetToList (find_items_to_be_deleted (curr_secret_key_ids secrets)
      (curr_aged_api_keys keyDict age_mins threshold ignore_list))) howner
  refine ⟨ts, hts, ?_⟩
  rw [hiff K]
  constructor
  · rintro ⟨item, hitem, v, hv, hvx⟩
    have hkv : v.api_key = item := hkeyed (item, v) (dictGet_mem hv)
    rw [hkv] at hvx
    subst hvx
    rw [mem_finsetToList, find_items_to_be_deleted, Finset.mem_sdiff] at hitem
    obtain ⟨haged, hsec⟩ := hitem
    rw [curr_aged_api_keys, List.mem_toFinset] at haged
    have hp := (mem_map_fst_filter _ hnodup hK).1 haged
    simp only [Bool.and_eq_true, decide_eq_true_eq, Bool.not_eq_true',
      decide_eq_false_iff_not] at hp
    exact ⟨hp.1, hp.2, hsec⟩
  · rintro ⟨hage, hign, hsec⟩
    have hp : (fun kv : String × CCloudAPIKey =>
        decide (age_mins kv.1 > threshold) &&
          !(decide (kv.2.owner_id ∈ ignore_list))) (K, V) = true := by
      simp only [Bool.and_eq_true, decide_eq_true_eq, Bool.not_eq_true',
        decide_eq_false_iff_not]
      exact ⟨hage, hign⟩
    refine ⟨K, ?_, V, hK, hkeyed (K, V) (dictGet_mem hK)⟩
    rw [mem_finsetToList, find_items_to_be_deleted, Finset.mem_sdiff,
      curr_aged_api_keys, List.mem_toFinset]
    exact ⟨(mem_map_fst_filter _ hnodup hK).2 hp, hsec⟩

/-- Claim C4 witness: the cleanup emission characterisation at a concrete
61-minute-old key with threshold 60. -/
theorem c4_aged_key_cleanup_iff_witness :
    (([("key-1", c4key)].map Prod.fst).Nodup) ∧
    ∃ ts, aged_cleanup_tasks [("sa-1", c4sa)] [("key-1", c4key)]
        (fun _ => 61) 60 [] [] = Except.ok ts ∧
      ((∃ t ∈ ts, CSMApiKeyTaskObj.api_key t = "key-1") ↔
        ((61 : Int) > 60 ∧ c4key.owner_id ∉ ([] : List String) ∧
          "key-1" ∉ curr_secret_key_ids [])) :=
  ⟨by decide,
    c4_aged_key_cleanup_iff [("sa-1", c4sa)] [("key-1", c4key)]
      (fun _ => 61) 60 [] [] "key-1" c4key (by decide) (by decide)
      (by decide) (by decide)⟩

/-- Claim C8 counterexample: one reconciliation pass emits two API-key
deletion tasks — one from the declaration-scoped orphan stream, one from
the provider-wide aged-key cleanup — with the same object type and the same
composite key (X, c1), indeed for the very same API key. -/
theorem c8_duplicate_delete_tasks_cex :
    delete_api_key_tasks c8state [("sa-1", c8sa)] [("key-1", c8key)]
        (fun _ => 100) 60 [] [] =
      Except.ok
        [{ task_type := CSMConfigTaskType.delete_task,
           object_type := CSMConfigObjectType.api_key_type,
           sa_name := "X", cluster_id := "c1", api_key := "key-1" },
         { task_type := CSMConfigTaskType.delete_task,
           object_type := CSMConfigObjectType.api_key_type,
           sa_name := "X", cluster_id := "c1", api_key := "key-1" }] := by
  rfl

/-- Claim C8 (amended): no two API-key creation tasks of one pass target
the same composite key — the creation loop iterates a set holding exactly
the declared keys missing from the provider or from the secret store — but
the two API-key deletion streams are not disjoint: an orphaned declared-SA
key that is also aged and absent from the secret store is emitted by both. -/
theorem c8_create_tasks_unique_amended
    (api_keys_in_def api_keys_in_ccloud : Finset String)
    (secrets : List CSMSecret) :
    (create_api_key_task_items api_keys_in_def api_keys_in_ccloud
      secrets).Nodup ∧
    ∀ k, k ∈ create_api_key_task_items api_keys_in_def api_keys_in_ccloud
        secrets ↔
      (k ∈ api_keys_in_def ∧
        (k ∉ api_keys_in_ccloud ∨ k ∉ secrets_in_store_of secrets)) := by
  refine ⟨nodup_finsetToList _, ?_⟩
  intro k
  rw [create_api_key_task_items, mem_finsetToList]
  simp only [create_api_keys_req_final, find_items_to_be_created,
    Finset.mem_union, Finset.mem_sdiff]
  tauto
